import Mathlib

/-!
The replication-lag walk of pg_replag

A shallow embedding of `src/replag.c` (with the query texts of `src/pg10.h`
and `src/pg9x.h`) and theorems about it.

Modelling conventions

* C strings are `String` values; raw buffers (`char *` built with `realloc`)
  are `List Char`, one `Char` per byte, the terminator being `NUL`.
* libpq is the environment: `Env.PQconnectdbParams` says, per host, whether a
  connection opens and which server answers; a server answers a query text
  with a `PGresult`.  The port, user and database name are the same process
  globals for every connection, so they are not part of the key.
* Every function returns the list of externally visible events it performs
  (`Trace`), in program order.
* The `while (*client)` loop of `get_standby_replication` need not terminate,
  so it takes a fuel argument and reports `Outcome.outOfFuel` when it runs out.
* Reads and writes outside a buffer and uses of a NULL pointer are reported as
  `Outcome.crashed`.
* `size_t` arithmetic is modelled in `Nat`: the sums involved are bounded by the
  size of the allocated buffer, far below `2^64`.  `realloc` never fails.
-/

namespace Replag

/-! ## libpq, as far as `replag.c` uses it -/

/-- The terminating byte of a C string. -/
def NUL : Char := Char.ofNat 0

/-- Result status of a query (`ExecStatusType` of `libpq-fe.h`). -/
inductive ExecStatusType
  | PGRES_EMPTY_QUERY
  | PGRES_COMMAND_OK
  | PGRES_TUPLES_OK
  | PGRES_COPY_OUT
  | PGRES_COPY_IN
  | PGRES_BAD_RESPONSE
  | PGRES_NONFATAL_ERROR
  | PGRES_FATAL_ERROR
  deriving DecidableEq

open ExecStatusType

/-- A query result: its status, its rows of text fields, its error text. -/
structure PGresult where
  status : ExecStatusType
  tuples : List (List String)
  errorMessage : String
  deriving DecidableEq

/-- Number of rows: `PQntuples`. -/
def PQntuples (r : PGresult) : Nat := r.tuples.length

/-- Field value: `PQgetvalue`; `none` is the NULL pointer libpq returns for a
row or column out of range. -/
def PQgetvalue (r : PGresult) (tup field : Nat) : Option String :=
  match r.tuples[tup]? with
  | none => none
  | some row => row[field]?

/-- A database server: the version it reports and its answer to each query. -/
structure Server where
  version : Int
  exec : String → PGresult

/-- An open connection: the host it was opened to and the server behind it. -/
structure PGconn where
  host : String
  server : Server

/-- Reported version: `PQserverVersion`. -/
def PQserverVersion (db : PGconn) : Int := db.server.version

/-- Run a query: `PQexec`. -/
def PQexec (db : PGconn) (query : String) : PGresult := db.server.exec query

/-- The process environment: the connection parameters left by
`parse_options`, the compile-time client version, the network, and the
contents of freshly allocated memory. -/
structure Env where
  dbhost : String
  PG_VERSION_NUM : Int
  PQconnectdbParams : String → Except String Server
  junk : Nat → Char

/-- Externally visible actions. -/
inductive Event
  | connect (host : String)
  | finish (host : String)
  | exec (host : String) (query : String)
  | print (result : PGresult)
  | stdout (text : String)
  | stderr (text : String)
  deriving DecidableEq

abbrev Trace := List Event

/-- How a call ends. -/
inductive Outcome (α : Type)
  | returned (value : α)
  | crashed
  | outOfFuel
  deriving DecidableEq

open Outcome

/-! ## Query texts (`pg10.h`, `pg9x.h`) -/

def PG10_STAT_REPLICATION : String :=
  "SELECT " ++
  "    client_addr, " ++
  "    state, " ++
  "    sent_lsn, " ++
  "    write_lsn, " ++
  "    flush_lsn, " ++
  "    replay_lsn, " ++
  "    sync_state, " ++
  "    sync_priority " ++
  "FROM " ++
  "    pg_stat_replication " ++
  ";"

def PG9X_STAT_REPLICATION : String :=
  "SELECT " ++
  "    client_addr, " ++
  "    state, " ++
  "    sent_location, " ++
  "\twrite_location, " ++
  "    flush_location, " ++
  "    replay_location, " ++
  "    sync_state, " ++
  "    sync_priority " ++
  "FROM " ++
  "    pg_stat_replication " ++
  ";"

/-- The select list of `PG10_STANDBY_REPLICATION_HEALTH`, one entry per result
column, in order. -/
def PG10_HEALTH_COLUMNS : List String :=
  [ "pg_is_in_recovery() AS recovery",
    "pg_is_wal_replay_paused() AS replay_paused",
    "pg_last_wal_receive_lsn() AS last_recv_lsn",
    "pg_last_wal_replay_lsn() AS last_replay_lsn",
    "pg_last_xact_replay_timestamp() AS last_replay_ts",
    "CASE " ++
    "        WHEN pg_last_wal_receive_lsn() = pg_last_wal_replay_lsn() THEN 0 " ++
    "        ELSE EXTRACT (EPOCH FROM now() - pg_last_xact_replay_timestamp()) " ++
    "    END AS wal_delay" ]

/-- The select list of `PG9X_STANDBY_REPLICATION_HEALTH`. -/
def PG9X_HEALTH_COLUMNS : List String :=
  [ "pg_is_in_recovery() AS recovery",
    "pg_is_xlog_replay_paused() AS replay_paused",
    "pg_last_xlog_receive_location() AS last_recv_lsn",
    "pg_last_xlog_replay_location() AS last_replay_lsn",
    "pg_last_xact_replay_timestamp() AS last_replay_ts",
    "CASE " ++
    "        WHEN pg_last_xlog_receive_location() = pg_last_xlog_replay_location() THEN 0 " ++
    "        ELSE EXTRACT(EPOCH FROM now() - pg_last_xact_replay_timestamp()) " ++
    "    END AS xlog_delay" ]

/-- Text of a health query with the given select list: `SELECT`, the entries
each on a line of their own indented by four blanks and separated by commas,
then `;` (the line breaks themselves are spliced out by the preprocessor). -/
def health_query_text (columns : List String) : String :=
  "SELECT " ++ String.intercalate ", " (columns.map (fun c => "    " ++ c)) ++ " ;"

def PG10_STANDBY_REPLICATION_HEALTH : String := health_query_text PG10_HEALTH_COLUMNS

def PG9X_STANDBY_REPLICATION_HEALTH : String := health_query_text PG9X_HEALTH_COLUMNS

def PG10_WAL_DELAY_SIZE : String :=
  "SELECT pg_size_pretty(pg_wal_lsn_diff('%s', '%s')) AS wal_delay_size"

def PG9X_XLOG_DELAY_SIZE : String :=
  "SELECT pg_size_pretty(pg_xlog_location_diff('%s', '%s')) AS xlog_delay_size"

/-! ## C library pieces -/

/-- Length of the C string stored at the start of `s`: `strlen`. -/
def strlen : List Char → Nat
  | [] => 0
  | c :: cs => if c = NUL then 0 else strlen cs + 1

/-- Bounds-checked store `buf[i] = c`. -/
def poke (buf : List Char) (i : Nat) (c : Char) : Option (List Char) :=
  if i < buf.length then some (buf.set i c) else none

/-- Copy of `n` bytes to `dst + pos`: `strncpy`. Once the source string has
ended, the remaining bytes are NUL. -/
def strncpy (dst : List Char) (pos : Nat) (src : List Char) : Nat → Option (List Char)
  | 0 => some dst
  | n + 1 =>
    let c := src.headD NUL
    match poke dst pos c with
    | none => none
    | some dst1 => strncpy dst1 (pos + 1) (if c = NUL then [] else src.tail) n

/-- Growing a block to `len` bytes: `realloc`. The old bytes are kept, the new
ones are whatever the allocator left there. -/
def realloc (env : Env) (block : List Char) (len : Nat) : List Char :=
  block.take len ++ (List.range (len - block.length)).map (fun k => env.junk (block.length + k))

/-- The C string stored at the start of `mem`, `none` when it is not
terminated inside `mem`. -/
def readCStr : List Char → Option (List Char)
  | [] => none
  | c :: cs =>
    if c = NUL then some []
    else match readCStr cs with
      | none => none
      | some s => some (c :: s)

/-- Expansion of a format whose only directives are `%s` (no other directive
occurs in the formats of this program). -/
def format : List Char → List String → List Char
  | [], _ => []
  | [c], _ => [c]
  | c :: d :: rest, args =>
    if c = '%' ∧ d = 's' then
      match args with
      | a :: args1 => a.data ++ format rest args1
      | [] => format rest []
    else c :: format (d :: rest) args

/-- Formatting into a buffer of `size` bytes: `snprintf`. At most `size - 1`
bytes of the expansion are kept. -/
def snprintf (size : Nat) (fmt : String) (args : List String) : String :=
  String.mk ((format fmt.data args).take (size - 1))

/-! ## `replag.c` -/

/-- Function `connectdb`: opens a connection to `dbhost` (port, user and
database name being the process globals). On failure the error text goes to
stderr, the handle is released and NULL (`none`) is returned. -/
def connectdb (env : Env) (dbhost : String) : Option PGconn × Trace :=
  match env.PQconnectdbParams dbhost with
  | Except.ok server => (some (PGconn.mk dbhost server), [Event.connect dbhost])
  | Except.error msg =>
    (none, [Event.connect dbhost, Event.stderr msg, Event.finish dbhost])

/-- The replication-list query `get_stream_replication` sends on `db`
(lines 205-208). -/
def stat_replication_query (db : PGconn) : String :=
  if PQserverVersion db >= 100000 then PG10_STAT_REPLICATION else PG9X_STAT_REPLICATION

/-- The current-position query `get_current_wal_lsn` sends on `db`
(lines 263-269). -/
def current_wal_lsn_query (db : PGconn) : String :=
  if PQserverVersion db >= 100000 then "SELECT pg_current_wal_lsn()"
  else "SELECT pg_current_xlog_location()"

/-- The health query `get_standby_replication` sends on the standby connection
`sdb` (lines 306-309). -/
def standby_health_query (sdb : PGconn) : String :=
  if PQserverVersion sdb >= 100000 then PG10_STANDBY_REPLICATION_HEALTH
  else PG9X_STANDBY_REPLICATION_HEALTH

/-- The lag-size format `get_standby_replication` expands for the standby
connection `sdb` (lines 330-333). -/
def delay_size_query (sdb : PGconn) : String :=
  if PQserverVersion sdb >= 100000 then PG10_WAL_DELAY_SIZE else PG9X_XLOG_DELAY_SIZE

/-- The `for` loop of `get_stream_replication` (lines 234-247): rows `i`,
`i + 1`, ... of `result`, `todo` of them, are appended to `clients`.
State: the allocated length `len`, the write position `pos`, the block. -/
def copy_clients (env : Env) (result : PGresult) :
    Nat → Nat → Nat → Nat → List Char → Option (Nat × Nat × List Char)
  | 0, _, len, pos, clients => some (len, pos, clients)
  | todo + 1, i, len, pos, clients =>
    match PQgetvalue result i 0 with
    | none => none
    | some addr =>
      let addrlen := strlen addr.data
      let len1 := len + (addrlen + 1)
      let clients1 := realloc env clients len1
      match strncpy clients1 pos addr.data addrlen with
      | none => none
      | some clients2 =>
        let pos1 := pos + addrlen
        match poke clients2 pos1 NUL with
        | none => none
        | some clients3 => copy_clients env result todo (i + 1) len1 (pos1 + 1) clients3

/-- Function `get_stream_replication`. The argument `standbys` is the
`char **`: `none` for a NULL pointer, otherwise the current value of the
pointed-to `char *`. The value returned is the `int` result together with the
value of `*standbys` after the call. -/
def get_stream_replication (env : Env) (db : PGconn) (standbys : Option (Option (List Char))) :
    Outcome (Int × Option (Option (List Char))) × Trace :=
  let query := stat_replication_query db
  let result := PQexec db query
  let t0 := [Event.exec db.host query]
  if result.status ≠ PGRES_TUPLES_OK then
    (returned (-1, standbys), t0 ++ [Event.stderr result.errorMessage])
  else
    let ntuples := PQntuples result
    if ntuples = 0 then
      (returned (1, standbys), t0 ++ [Event.stdout "INFO: there is no stream replication\n"])
    else
      let t1 := t0 ++ [Event.print result]
      match standbys with
      | none => (returned (0, none), t1)
      | some _ =>
        match copy_clients env result ntuples 0 1 0 [env.junk 0] with
        | none => (crashed, t1)
        | some (_, pos, clients) =>
          match poke clients pos NUL with
          | none => (crashed, t1)
          | some clients1 => (returned (0, some (some clients1)), t1)

/-- Function `get_current_wal_lsn`: the returned pointer is `none` for NULL. -/
def get_current_wal_lsn (db : PGconn) : Outcome (Option String) × Trace :=
  let query := current_wal_lsn_query db
  let xlogname := if PQserverVersion db >= 100000 then "wal lsn" else "xlog location"
  let result := PQexec db query
  let t0 := [Event.exec db.host query]
  if result.status ≠ PGRES_TUPLES_OK then
    (returned none, t0 ++ [Event.stderr ("ERROR: fetch current " ++ xlogname ++ " failed\n")])
  else
    match PQgetvalue result 0 0 with
    | none => (crashed, t0)
    | some v => (returned (some v), t0)

/-- How one pass through the body of the `while` loop ends. -/
inductive Step
  | continue_
  | advance
  | ret (res : Int)
  | crash
  deriving DecidableEq

/-- The body of the `while` loop of `get_standby_replication` (lines 292-347)
for the string `client` the pointer designates: `continue_` is the `continue`
statement of line 301, `advance` is reaching line 349. -/
def standby_body (env : Env) (lsn : String) (client : String) : Step × Trace :=
  match connectdb env client with
  | (none, t0) =>
    (Step.continue_,
      t0 ++ [Event.stdout ("WARNING: cannot connect standby \"" ++ client ++ "\"\n")])
  | (some sdb, t0) =>
    let t1 := t0 ++ [Event.stdout ("[STANDBY]: " ++ client ++ "\n")]
    let query := standby_health_query sdb
    let result := PQexec sdb query
    let t2 := t1 ++ [Event.exec sdb.host query]
    if result.status ≠ PGRES_TUPLES_OK then
      (Step.ret (-1), t2 ++ [Event.stderr result.errorMessage])
    else
      let replsn := PQgetvalue result 0 3
      let t3 := t2 ++ [Event.print result]
      match PQgetvalue result 0 5 with
      | none => (Step.crash, t3)
      | some delay =>
        if delay ≠ "0" then
          let query1 := delay_size_query sdb
          match replsn with
          | none => (Step.crash, t3)
          | some replsn1 =>
            let sql := snprintf 1024 query1 [lsn, replsn1]
            let lsnres := PQexec sdb sql
            let t4 := t3 ++ [Event.exec sdb.host sql] ++
              (if lsnres.status ≠ PGRES_TUPLES_OK then [Event.stderr lsnres.errorMessage]
               else [Event.print lsnres])
            (Step.advance, t4 ++ [Event.finish sdb.host])
        else
          (Step.advance, t3 ++ [Event.finish sdb.host])

/-- The `while (*client)` loop of `get_standby_replication`, `client` being the
offset of the pointer into the block `standbys`. -/
def standby_loop (env : Env) (lsn : String) (standbys : List Char) :
    Nat → Nat → Outcome Int × Trace
  | 0, _ => (outOfFuel, [])
  | fuel + 1, client =>
    match standbys[client]? with
    | none => (crashed, [])
    | some c =>
      if c = NUL then (returned 0, [])
      else
        match readCStr (standbys.drop client) with
        | none => (crashed, [])
        | some s =>
          match standby_body env lsn (String.mk s) with
          | (Step.continue_, t) =>
            let r := standby_loop env lsn standbys fuel client
            (r.1, t ++ r.2)
          | (Step.advance, t) =>
            let r := standby_loop env lsn standbys fuel (client + strlen (standbys.drop client) + 1)
            (r.1, t ++ r.2)
          | (Step.ret res, t) => (returned res, t)
          | (Step.crash, t) => (crashed, t)

/-- Function `get_standby_replication`; `fuel` bounds the number of passes
through the loop. -/
def get_standby_replication (env : Env) (fuel : Nat) (standbys : List Char) (lsn : String) :
    Outcome Int × Trace :=
  standby_loop env lsn standbys fuel 0

/-- Function `main`, after `parse_options`. The value returned is the exit
status handed to the C runtime. -/
def main (env : Env) (fuel : Nat) : Outcome Int × Trace :=
  match connectdb env env.dbhost with
  | (none, t0) => (returned (-1), t0)
  | (some db, t0) =>
    let version := PQserverVersion db
    let t1 := t0 ++
      [Event.stdout ("server version: " ++ toString version ++ ", client version: " ++
          toString env.PG_VERSION_NUM ++ "\n"),
       Event.stdout ("\n[MASTER]: " ++ env.dbhost ++ "\n")]
    match get_stream_replication env db (some none) with
    | (crashed, t2) => (crashed, t1 ++ t2)
    | (outOfFuel, t2) => (outOfFuel, t1 ++ t2)
    | (returned (res, standbys), t2) =>
      if res ≠ 0 then (returned res, t1 ++ t2 ++ [Event.finish db.host])
      else
        match get_current_wal_lsn db with
        | (crashed, t3) => (crashed, t1 ++ t2 ++ t3)
        | (outOfFuel, t3) => (outOfFuel, t1 ++ t2 ++ t3)
        | (returned none, t3) => (returned res, t1 ++ t2 ++ t3 ++ [Event.finish db.host])
        | (returned (some curlsn), t3) =>
          let t4 := t1 ++ t2 ++ t3 ++
            [Event.stdout ("current " ++
              (if version > 100000 then "wal lsn" else "xlog location") ++ ": " ++
              curlsn ++ "\n\n")]
          match standbys with
          | none => (crashed, t4)
          | some none => (crashed, t4)
          | some (some buf) =>
            match get_standby_replication env fuel buf curlsn with
            | (returned res1, t5) =>
              if res1 ≠ 0 then (returned res1, t4 ++ t5 ++ [Event.finish db.host])
              else (returned 0, t4 ++ t5 ++ [Event.finish db.host])
            | (crashed, t5) => (crashed, t4 ++ t5)
            | (outOfFuel, t5) => (outOfFuel, t4 ++ t5)

/-! ## Reading traces -/

/-- Hosts to which a connection was attempted, in order. -/
def connects : Trace → List String
  | [] => []
  | Event.connect h :: t => h :: connects t
  | _ :: t => connects t

/-- Queries sent, in order, each with the host of its connection. -/
def execs : Trace → List (String × String)
  | [] => []
  | Event.exec h q :: t => (h, q) :: execs t
  | _ :: t => execs t

/-- Texts written to standard output by `printf`, in order. -/
def stdouts : Trace → List String
  | [] => []
  | Event.stdout s :: t => s :: stdouts t
  | _ :: t => stdouts t

/-- Results rendered by `PQprint`, in order. -/
def prints : Trace → List PGresult
  | [] => []
  | Event.print r :: t => r :: prints t
  | _ :: t => prints t

/-! ## Layout of the address block -/

/-- The addresses, each followed by its terminator. -/
def pack : List String → List Char
  | [] => []
  | a :: rest => a.data ++ NUL :: pack rest

/-- The block of addresses `get_stream_replication` hands to
`get_standby_replication`: the packed addresses, then one more NUL. -/
def encode (addrs : List String) : List Char := pack addrs ++ [NUL]

/-- A well-formed, non-empty C string: no NUL inside. -/
def isAddr (a : String) : Prop := a.data ≠ [] ∧ NUL ∉ a.data

instance (a : String) : Decidable (isAddr a) := by unfold isAddr; infer_instance

/-- The first-column values of a result, row by row (`none` where a row has no
column 0). -/
def client_addrs (result : PGresult) : List (Option String) :=
  result.tuples.map (fun row => row[0]?)

/-- Concatenation of the traces of the loop body over a list of addresses. -/
def body_traces (env : Env) (lsn : String) : List String → Trace
  | [] => []
  | a :: rest => (standby_body env lsn a).2 ++ body_traces env lsn rest

/-- The standby at `a` accepts the connection and answers the health query with
a success status and a row that has a delay column (index 5). -/
def healthy (env : Env) (a : String) : Bool :=
  match env.PQconnectdbParams a with
  | Except.ok srv =>
    decide ((srv.exec (standby_health_query (PGconn.mk a srv))).status = PGRES_TUPLES_OK) &&
      (PQgetvalue (srv.exec (standby_health_query (PGconn.mk a srv))) 0 5).isSome
  | Except.error _ => false

/-- The standby at `a` accepts the connection and its health query does not
succeed. -/
def health_fails (env : Env) (a : String) : Bool :=
  match env.PQconnectdbParams a with
  | Except.ok srv =>
    decide ((srv.exec (standby_health_query (PGconn.mk a srv))).status ≠ PGRES_TUPLES_OK)
  | Except.error _ => false

/-- The events of a visit of the standby `client` that gets as far as the
health row `result`, the lag-size query being `sql` with answer `lsnres`. -/
def visit_trace (client query : String) (result : PGresult) (delay sql : String)
    (lsnres : PGresult) : Trace :=
  [Event.connect client, Event.stdout ("[STANDBY]: " ++ client ++ "\n"),
    Event.exec client query, Event.print result] ++
  (if delay = "0" then []
   else [Event.exec client sql,
     if lsnres.status = PGRES_TUPLES_OK then Event.print lsnres
     else Event.stderr lsnres.errorMessage]) ++
  [Event.finish client]

/-- What `main` does before the first query on the primary connection. -/
def main_banner (env : Env) (srv : Server) : Trace :=
  [Event.connect env.dbhost,
   Event.stdout ("server version: " ++ toString srv.version ++ ", client version: " ++
      toString env.PG_VERSION_NUM ++ "\n"),
   Event.stdout ("\n[MASTER]: " ++ env.dbhost ++ "\n")]

/-- The events with which `main` ends once the walk is over: the primary
connection is closed when the walk returned. -/
def main_epilogue (env : Env) : Outcome Int → Trace
  | Outcome.returned _ => [Event.finish env.dbhost]
  | _ => []

/-! ## Example environments -/

/-- A replication-list row for the standby at `addr`. -/
def replication_row (addr : String) : List String :=
  [addr, "streaming", "0/3000060", "0/3000060", "0/3000060", "0/3000000", "async", "0"]

/-- A primary: it answers the replication-list query (of either dialect) with
`list` and every other query with `position`. -/
def primary_server (version : Int) (list position : PGresult) : Server :=
  Server.mk version (fun q =>
    if q = PG10_STAT_REPLICATION ∨ q = PG9X_STAT_REPLICATION then list else position)

/-- A standby: it answers the health query (of either dialect) with `health`
and every other query with `size`. -/
def standby_server (version : Int) (health size : PGresult) : Server :=
  Server.mk version (fun q =>
    if q = PG10_STANDBY_REPLICATION_HEALTH ∨ q = PG9X_STANDBY_REPLICATION_HEALTH then health
    else size)

def tuples_ok (rows : List (List String)) : PGresult := PGresult.mk PGRES_TUPLES_OK rows ""

def query_failed : PGresult :=
  PGresult.mk PGRES_FATAL_ERROR [] "ERROR:  permission denied\n"

/-- Health row of a standby that has replayed everything it received. -/
def caught_up : PGresult :=
  tuples_ok [["t", "f", "0/3000060", "0/3000060", "2024-01-01 00:00:00+00", "0"]]

/-- Health row of a standby that lags behind. -/
def lagging : PGresult :=
  tuples_ok [["t", "f", "0/3000060", "0/3000000", "2024-01-01 00:00:00+00", "1.5"]]

def size_ok : PGresult := tuples_ok [["96 bytes"]]

/-- The environment of the examples: the primary is at 10.0.0.1, the other
hosts are as `standby` says. -/
def example_env (primary : Server) (standby : String → Except String Server) : Env :=
  Env.mk "10.0.0.1" 120000
    (fun h => if h = "10.0.0.1" then Except.ok primary else standby h)
    (fun _ => 'x')

/-- Three standbys, the middle one unreachable. -/
def env_unreachable : Env :=
  example_env
    (primary_server 120000
      (tuples_ok [replication_row "10.0.0.2", replication_row "10.0.0.3",
        replication_row "10.0.0.4"])
      (tuples_ok [["0/3000060"]]))
    (fun h => if h = "10.0.0.3" then Except.error "could not connect to server\n"
      else Except.ok (standby_server 120000 caught_up size_ok))

/-- One standby, and a primary on which the current-position query is denied. -/
def env_position_denied : Env :=
  example_env
    (primary_server 120000 (tuples_ok [replication_row "10.0.0.2"]) query_failed)
    (fun _ => Except.ok (standby_server 120000 caught_up size_ok))

/-- A primary with no standby attached. -/
def env_no_standby : Env :=
  example_env
    (primary_server 120000 (tuples_ok []) (tuples_ok [["0/3000060"]]))
    (fun _ => Except.ok (standby_server 120000 caught_up size_ok))

/-- Two reachable standbys, the first of which denies the health query. -/
def env_health_denied : Env :=
  example_env
    (primary_server 120000
      (tuples_ok [replication_row "10.0.0.2", replication_row "10.0.0.3"])
      (tuples_ok [["0/3000060"]]))
    (fun h => if h = "10.0.0.2" then Except.ok (standby_server 120000 query_failed size_ok)
      else Except.ok (standby_server 120000 caught_up size_ok))

/-- Two replication rows, the first with an empty `client_addr` (what libpq
gives for the NULL address of a standby attached over a local socket); every
host accepts connections and is healthy. -/
def env_empty_addr : Env :=
  example_env
    (primary_server 120000
      (tuples_ok [replication_row "", replication_row "10.0.0.3"])
      (tuples_ok [["0/3000060"]]))
    (fun _ => Except.ok (standby_server 120000 caught_up size_ok))

/-- Three replication rows, the middle one with an empty `client_addr`; every
host accepts connections and is healthy. -/
def env_empty_addr_between : Env :=
  example_env
    (primary_server 120000
      (tuples_ok [replication_row "10.0.0.2", replication_row "", replication_row "10.0.0.4"])
      (tuples_ok [["0/3000060"]]))
    (fun _ => Except.ok (standby_server 120000 caught_up size_ok))

/-- Two reachable standbys: 10.0.0.2 runs version 12 and is caught up,
10.0.0.3 runs version 9.6 and lags. -/
def env_two_standbys : Env :=
  example_env
    (primary_server 120000
      (tuples_ok [replication_row "10.0.0.2", replication_row "10.0.0.3"])
      (tuples_ok [["0/3000060"]]))
    (fun h => if h = "10.0.0.2" then Except.ok (standby_server 120000 caught_up size_ok)
      else Except.ok (standby_server 90600 lagging size_ok))

/-- A primary that reports version 10.0, i.e. 100000, with one standby. -/
def env_pg10_0 : Env :=
  example_env
    (primary_server 100000 (tuples_ok [replication_row "10.0.0.2"])
      (tuples_ok [["0/3000060"]]))
    (fun _ => Except.ok (standby_server 100000 caught_up size_ok))

/-! ## Lemmas -/

theorem strlen_append_nul (s t : List Char) (h : NUL ∉ s) :
    strlen (s ++ NUL :: t) = s.length := by
  induction s with
  | nil => simp [strlen]
  | cons c cs ih =>
    have hc : c ≠ NUL := fun e => h (by simp [e])
    have hcs : NUL ∉ cs := fun e => h (by simp [e])
    simp [strlen, hc, ih hcs]

theorem strlen_of_not_mem (s : List Char) (h : NUL ∉ s) : strlen s = s.length := by
  induction s with
  | nil => simp [strlen]
  | cons c cs ih =>
    have hc : c ≠ NUL := fun e => h (by simp [e])
    have hcs : NUL ∉ cs := fun e => h (by simp [e])
    simp [strlen, hc, ih hcs]

theorem readCStr_append_nul (s t : List Char) (h : NUL ∉ s) :
    readCStr (s ++ NUL :: t) = some s := by
  induction s with
  | nil => simp [readCStr]
  | cons c cs ih =>
    have hc : c ≠ NUL := fun e => h (by simp [e])
    have hcs : NUL ∉ cs := fun e => h (by simp [e])
    simp [readCStr, hc, ih hcs]

theorem poke_append (a b : List Char) (c x : Char) :
    poke (a ++ c :: b) a.length x = some (a ++ x :: b) := by
  simp [poke]

theorem strncpy_append (src : List Char) (h : NUL ∉ src) :
    ∀ (a mid b : List Char), mid.length = src.length →
      strncpy (a ++ mid ++ b) a.length src src.length = some (a ++ src ++ b) := by
  induction src with
  | nil =>
    intro a mid b hm
    have : mid = [] := List.length_eq_zero.mp hm
    simp [strncpy, this]
  | cons c cs ih =>
    intro a mid b hm
    have hc : c ≠ NUL := fun e => h (by simp [e])
    have hcs : NUL ∉ cs := fun e => h (by simp [e])
    cases mid with
    | nil => simp at hm
    | cons m ms =>
      have hms : ms.length = cs.length := by simpa using hm
      have h1 : poke (a ++ m :: ms ++ b) a.length c = some ((a ++ [c]) ++ ms ++ b) := by
        have := poke_append a (ms ++ b) m c
        simpa using this
      have h2 := ih hcs (a ++ [c]) ms b hms
      simp only [List.length_append, List.length_singleton] at h2
      simp only [strncpy, List.length_cons, List.headD_cons, h1, hc, if_false, List.tail_cons, h2]
      simp

theorem split_last_two (E : List Char) (n : Nat) (h : E.length = n + 2) :
    ∃ M z y, M.length = n ∧ E = M ++ [z, y] := by
  have hd : (E.drop n).length = 2 := by simp [h]
  match hE : E.drop n, hd with
  | [z, y], _ =>
    refine ⟨E.take n, z, y, ?_, ?_⟩
    · simp [h]
    · rw [← hE]; exact (List.take_append_drop n E).symm

theorem realloc_grow (env : Env) (content : List Char) (x : Char) (n : Nat) :
    ∃ M z y, M.length = n ∧
      realloc env (content ++ [x]) (content.length + 1 + (n + 1)) = content ++ M ++ [z, y] := by
  have hblock : (content ++ [x]).take (content.length + 1 + (n + 1)) = content ++ [x] :=
    List.take_of_length_le (by simp)
  have hE : ((x :: (List.range (content.length + 1 + (n + 1) - (content ++ [x]).length)).map
      (fun k => env.junk ((content ++ [x]).length + k)))).length = n + 2 := by
    simp
  obtain ⟨M, z, y, hM, hsp⟩ := split_last_two _ n hE
  refine ⟨M, z, y, hM, ?_⟩
  unfold realloc
  rw [hblock, List.append_assoc content M, ← hsp]
  simp

theorem copy_clients_spec (env : Env) (result : PGresult) :
    ∀ (rest : List String) (i : Nat) (content : List Char) (x : Char),
      (∀ k, PQgetvalue result (i + k) 0 = rest[k]?) → (∀ a ∈ rest, NUL ∉ a.data) →
      ∃ y, copy_clients env result rest.length i (content.length + 1) content.length
          (content ++ [x])
        = some ((content ++ pack rest).length + 1, (content ++ pack rest).length,
            content ++ pack rest ++ [y]) := by
  intro rest
  induction rest with
  | nil =>
    intro i content x _ _
    exact ⟨x, by simp [copy_clients, pack]⟩
  | cons a rest ih =>
    intro i content x hget hnul
    have ha : NUL ∉ a.data := hnul a (by simp)
    have hg0 : PQgetvalue result i 0 = some a := by simpa using hget 0
    obtain ⟨M, z, y, hM, hre⟩ := realloc_grow env content x a.data.length
    have hcp := strncpy_append a.data ha content M [z, y] hM
    have hpk := poke_append (content ++ a.data) [y] z NUL
    have hget1 : ∀ k, PQgetvalue result (i + 1 + k) 0 = rest[k]? := by
      intro k
      have := hget (k + 1)
      simpa [Nat.add_assoc, Nat.add_comm 1 k] using this
    obtain ⟨y1, hrec⟩ := ih (i + 1) (content ++ a.data ++ [NUL]) y hget1
      (fun b hb => hnul b (by simp [hb]))
    refine ⟨y1, ?_⟩
    have e1 : content.length + 1 + (strlen a.data + 1) = content.length + 1 + (a.data.length + 1) := by
      rw [strlen_of_not_mem _ ha]
    simp only [copy_clients, List.length_cons, hg0, e1, hre, strlen_of_not_mem _ ha, hcp]
    have e2 : content.length + a.data.length = (content ++ a.data).length := by simp
    rw [e2, hpk]
    simp only [List.length_append, List.length_singleton, List.length_cons] at hrec ⊢
    simp only [List.append_assoc, List.singleton_append, pack, List.length_append,
      List.length_cons] at hrec ⊢
    simp only [List.length_nil, Nat.zero_add, Nat.add_assoc] at hrec ⊢
    rw [show 1 + (a.data.length + 1) = a.data.length + (1 + 1) by omega, hrec]
    simp; omega

theorem PQgetvalue_client_addrs (result : PGresult) (L : List String)
    (h : client_addrs result = L.map some) (k : Nat) :
    PQgetvalue result k 0 = L[k]? := by
  have h1 : (client_addrs result)[k]? = (L.map some)[k]? := by rw [h]
  simp only [client_addrs, List.getElem?_map] at h1
  unfold PQgetvalue
  cases hr : result.tuples[k]? with
  | none =>
    rw [hr] at h1
    cases hl : L[k]? with
    | none => rfl
    | some a => rw [hl] at h1; simp at h1
  | some row =>
    rw [hr] at h1
    cases hl : L[k]? with
    | none => rw [hl] at h1; simp at h1
    | some a => rw [hl] at h1; simpa using h1

theorem PQntuples_client_addrs (result : PGresult) (L : List String)
    (h : client_addrs result = L.map some) : PQntuples result = L.length := by
  have := congrArg List.length h
  simpa [client_addrs, PQntuples] using this

/-- With a successful, non-empty replication list whose addresses are C
strings, `get_stream_replication` returns 0 and stores the encoded block. -/
theorem get_stream_replication_ok (env : Env) (db : PGconn) (sb : Option (List Char))
    (L : List String)
    (hst : (PQexec db (stat_replication_query db)).status = PGRES_TUPLES_OK)
    (hrows : client_addrs (PQexec db (stat_replication_query db)) = L.map some)
    (hne : L ≠ []) (hnul : ∀ a ∈ L, NUL ∉ a.data) :
    get_stream_replication env db (some sb)
      = (returned (0, some (some (encode L))),
          [Event.exec db.host (stat_replication_query db),
           Event.print (PQexec db (stat_replication_query db))]) := by
  have hn := PQntuples_client_addrs _ L hrows
  have hn0 : L.length ≠ 0 := fun e => hne (List.length_eq_zero.mp e)
  obtain ⟨y, hcopy⟩ := copy_clients_spec env (PQexec db (stat_replication_query db)) L 0 []
    (env.junk 0) (fun k => by simpa using PQgetvalue_client_addrs _ L hrows k) hnul
  simp only [List.length_nil, Nat.zero_add, List.nil_append] at hcopy
  have hpk := poke_append (pack L) [] y NUL
  simp only [get_stream_replication, hst, ne_eq, not_true_eq_false, if_false, hn, hn0, hcopy,
    hpk, encode]
  rfl

theorem block_at_length (pre : List Char) (c : Char) (t : List Char) :
    (pre ++ c :: t)[pre.length]? = some c := by
  rw [List.getElem?_append_right (Nat.le_refl _)]
  simp

theorem isAddr_head (a : String) (h : isAddr a) :
    ∃ c cs, a.data = c :: cs ∧ c ≠ NUL := by
  obtain ⟨hne, hnul⟩ := h
  cases hd : a.data with
  | nil => exact absurd hd hne
  | cons c cs =>
    refine ⟨c, cs, rfl, ?_⟩
    intro e
    apply hnul
    rw [hd, e]; simp

/-- One pass of the loop at an address of the block. -/
theorem standby_loop_step (env : Env) (lsn : String) (a : String) (ha : isAddr a)
    (pre tail : List Char) (fuel : Nat) :
    standby_loop env lsn (pre ++ (a.data ++ NUL :: tail)) (fuel + 1) pre.length
      = match standby_body env lsn a with
        | (Step.continue_, t) =>
          ((standby_loop env lsn (pre ++ (a.data ++ NUL :: tail)) fuel pre.length).1,
            t ++ (standby_loop env lsn (pre ++ (a.data ++ NUL :: tail)) fuel pre.length).2)
        | (Step.advance, t) =>
          ((standby_loop env lsn (pre ++ (a.data ++ NUL :: tail)) fuel
              (pre ++ a.data ++ [NUL]).length).1,
            t ++ (standby_loop env lsn (pre ++ (a.data ++ NUL :: tail)) fuel
              (pre ++ a.data ++ [NUL]).length).2)
        | (Step.ret res, t) => (returned res, t)
        | (Step.crash, t) => (crashed, t) := by
  obtain ⟨c, cs, hd, hc⟩ := isAddr_head a ha
  have hget : (pre ++ (a.data ++ NUL :: tail))[pre.length]? = some c := by
    rw [hd]; exact block_at_length pre c _
  have hdrop : (pre ++ (a.data ++ NUL :: tail)).drop pre.length = a.data ++ NUL :: tail :=
    List.drop_left _ _
  have hread := readCStr_append_nul a.data tail ha.2
  have hlen := strlen_append_nul a.data tail ha.2
  have hmk : String.mk a.data = a := rfl
  have hoff : pre.length + a.data.length + 1 = (pre ++ a.data ++ [NUL]).length := by
    simp only [List.length_append, List.length_singleton]
  rw [standby_loop]
  simp only [hget, hc, if_false, hdrop, hread, hlen, hmk, hoff]

theorem pack_append (P Q : List String) : pack (P ++ Q) = pack P ++ pack Q := by
  induction P with
  | nil => rfl
  | cons a P ih => simp [pack, ih]

/-- The loop walks through a prefix of addresses on which the body advances. -/
theorem standby_loop_prefix (env : Env) (lsn : String) :
    ∀ (P : List String) (pre tail : List Char) (fuel : Nat),
      (∀ a ∈ P, isAddr a ∧ (standby_body env lsn a).1 = Step.advance) →
      standby_loop env lsn (pre ++ (pack P ++ tail)) (fuel + P.length) pre.length
        = ((standby_loop env lsn (pre ++ (pack P ++ tail)) fuel (pre ++ pack P).length).1,
            body_traces env lsn P ++
              (standby_loop env lsn (pre ++ (pack P ++ tail)) fuel (pre ++ pack P).length).2) := by
  intro P
  induction P with
  | nil => intro pre tail fuel _; simp [pack, body_traces]
  | cons a P ih =>
    intro pre tail fuel h
    obtain ⟨ha, hadv⟩ := h a (by simp)
    have hP : ∀ b ∈ P, isAddr b ∧ (standby_body env lsn b).1 = Step.advance :=
      fun b hb => h b (by simp [hb])
    have hbuf : pre ++ (pack (a :: P) ++ tail) = pre ++ (a.data ++ NUL :: (pack P ++ tail)) := by
      simp [pack]
    have hbuf2 : pre ++ (a.data ++ NUL :: (pack P ++ tail))
        = (pre ++ a.data ++ [NUL]) ++ (pack P ++ tail) := by simp
    have hoff : (pre ++ pack (a :: P)).length = ((pre ++ a.data ++ [NUL]) ++ pack P).length := by
      simp [pack]
    rw [hbuf, hoff, show fuel + (a :: P).length = (fuel + P.length) + 1 from rfl,
      standby_loop_step env lsn a ha pre (pack P ++ tail) (fuel + P.length)]
    rcases hb : standby_body env lsn a with ⟨st, t⟩
    rw [hb] at hadv
    simp only at hadv
    subst hadv
    simp only [body_traces, hb]
    rw [hbuf2, ih (pre ++ a.data ++ [NUL]) tail fuel hP]
    simp

/-- At the terminating empty string the loop returns 0. -/
theorem standby_loop_end (env : Env) (lsn : String) (pre tail : List Char) (fuel : Nat) :
    standby_loop env lsn (pre ++ NUL :: tail) (fuel + 1) pre.length = (returned 0, []) := by
  rw [standby_loop, block_at_length]
  simp

/-- On a block of addresses on all of which the body advances, the loop returns
0 after one pass per address. -/
theorem standby_loop_all (env : Env) (lsn : String) (L : List String) (fuel : Nat)
    (h : ∀ a ∈ L, isAddr a ∧ (standby_body env lsn a).1 = Step.advance)
    (hfuel : L.length < fuel) :
    get_standby_replication env fuel (encode L) lsn = (returned 0, body_traces env lsn L) := by
  obtain ⟨k, rfl⟩ : ∃ k, fuel = (k + 1) + L.length := ⟨fuel - L.length - 1, by omega⟩
  have := standby_loop_prefix env lsn L [] [NUL] (k + 1) h
  simp only [List.nil_append, List.length_nil] at this
  unfold get_standby_replication encode
  rw [this]
  have he := standby_loop_end env lsn (pack L) [] k
  rw [he]
  simp

/-- An address whose body ends in `continue` is visited again and again: the
loop never gets past it. -/
theorem standby_loop_stall (env : Env) (lsn : String) (a : String) (ha : isAddr a)
    (pre tail : List Char) (hcont : (standby_body env lsn a).1 = Step.continue_) :
    ∀ fuel, standby_loop env lsn (pre ++ (a.data ++ NUL :: tail)) fuel pre.length
      = (outOfFuel, (List.replicate fuel (standby_body env lsn a).2).flatten) := by
  intro fuel
  induction fuel with
  | zero => simp [standby_loop]
  | succ n ih =>
    rw [standby_loop_step env lsn a ha pre tail n, ih]
    rcases hb : standby_body env lsn a with ⟨st, t⟩
    rw [hb] at hcont
    simp only at hcont
    subst hcont
    simp [List.replicate_succ]

theorem PQgetvalue_col3_of_col5 (r : PGresult) (delay : String)
    (h : PQgetvalue r 0 5 = some delay) : ∃ replsn, PQgetvalue r 0 3 = some replsn := by
  unfold PQgetvalue at h ⊢
  cases hr : r.tuples[0]? with
  | none => rw [hr] at h; simp at h
  | some row =>
    rw [hr] at h
    simp only at h ⊢
    have h5 : 5 < row.length := by
      by_contra hc
      have : row[5]? = none := List.getElem?_eq_none (by omega)
      rw [this] at h; simp at h
    exact ⟨row[3], List.getElem?_eq_getElem (by omega)⟩

theorem standby_body_unreachable (env : Env) (lsn client msg : String)
    (h : env.PQconnectdbParams client = Except.error msg) :
    standby_body env lsn client
      = (Step.continue_,
          [Event.connect client, Event.stderr msg, Event.finish client,
           Event.stdout ("WARNING: cannot connect standby \"" ++ client ++ "\"\n")]) := by
  simp [standby_body, connectdb, h]

theorem standby_body_health_failed (env : Env) (lsn client : String) (srv : Server)
    (h : env.PQconnectdbParams client = Except.ok srv)
    (hs : (srv.exec (standby_health_query (PGconn.mk client srv))).status ≠ PGRES_TUPLES_OK) :
    standby_body env lsn client
      = (Step.ret (-1),
          [Event.connect client, Event.stdout ("[STANDBY]: " ++ client ++ "\n"),
           Event.exec client (standby_health_query (PGconn.mk client srv)),
           Event.stderr (srv.exec (standby_health_query (PGconn.mk client srv))).errorMessage]) := by
  simp [standby_body, connectdb, h, PQexec, hs]

theorem standby_body_ok (env : Env) (lsn client : String) (srv : Server) (delay replsn : String)
    (h : env.PQconnectdbParams client = Except.ok srv)
    (hs : (srv.exec (standby_health_query (PGconn.mk client srv))).status = PGRES_TUPLES_OK)
    (h5 : PQgetvalue (srv.exec (standby_health_query (PGconn.mk client srv))) 0 5 = some delay)
    (h3 : PQgetvalue (srv.exec (standby_health_query (PGconn.mk client srv))) 0 3 = some replsn) :
    standby_body env lsn client
      = (Step.advance,
          visit_trace client (standby_health_query (PGconn.mk client srv))
            (srv.exec (standby_health_query (PGconn.mk client srv))) delay
            (snprintf 1024 (delay_size_query (PGconn.mk client srv)) [lsn, replsn])
            (srv.exec (snprintf 1024 (delay_size_query (PGconn.mk client srv)) [lsn, replsn]))) := by
  by_cases hd : delay = "0"
  · simp [standby_body, connectdb, h, PQexec, hs, h5, h3, hd, visit_trace]
  · by_cases hl : (srv.exec (snprintf 1024 (delay_size_query (PGconn.mk client srv))
        [lsn, replsn])).status = PGRES_TUPLES_OK
    · simp [standby_body, connectdb, h, PQexec, hs, h5, h3, hd, visit_trace, hl]
    · simp [standby_body, connectdb, h, PQexec, hs, h5, h3, hd, visit_trace, hl]

theorem connects_append (s t : Trace) : connects (s ++ t) = connects s ++ connects t := by
  induction s with
  | nil => rfl
  | cons e s ih => cases e <;> simp [connects, ih]

theorem connects_visit_trace (client query : String) (result : PGresult) (delay sql : String)
    (lsnres : PGresult) :
    connects (visit_trace client query result delay sql lsnres) = [client] := by
  unfold visit_trace
  by_cases hd : delay = "0"
  · simp [hd, connects]
  · by_cases hl : lsnres.status = PGRES_TUPLES_OK <;> simp [hd, hl, connects]

theorem healthy_body (env : Env) (lsn a : String) (h : healthy env a = true) :
    (standby_body env lsn a).1 = Step.advance ∧ connects (standby_body env lsn a).2 = [a] := by
  unfold healthy at h
  cases hc : env.PQconnectdbParams a with
  | error msg => rw [hc] at h; simp at h
  | ok srv =>
    rw [hc] at h
    simp only [Bool.and_eq_true, decide_eq_true_eq, Option.isSome_iff_exists] at h
    obtain ⟨hs, delay, h5⟩ := h
    obtain ⟨replsn, h3⟩ := PQgetvalue_col3_of_col5 _ delay h5
    rw [standby_body_ok env lsn a srv delay replsn hc hs h5 h3]
    exact ⟨rfl, connects_visit_trace _ _ _ _ _ _⟩

theorem health_fails_body (env : Env) (lsn a : String) (h : health_fails env a = true) :
    (standby_body env lsn a).1 = Step.ret (-1) ∧ connects (standby_body env lsn a).2 = [a] := by
  unfold health_fails at h
  cases hc : env.PQconnectdbParams a with
  | error msg => rw [hc] at h; simp at h
  | ok srv =>
    rw [hc] at h
    simp only [decide_eq_true_eq] at h
    rw [standby_body_health_failed env lsn a srv hc h]
    exact ⟨rfl, by simp [connects]⟩

theorem connects_body_traces (env : Env) (lsn : String) (L : List String)
    (h : ∀ a ∈ L, healthy env a = true) : connects (body_traces env lsn L) = L := by
  induction L with
  | nil => rfl
  | cons a L ih =>
    simp only [body_traces, connects_append, (healthy_body env lsn a (h a (by simp))).2,
      ih (fun b hb => h b (by simp [hb]))]
    rfl

/-- The walk up to an address whose body returns. -/
theorem walk_ret (env : Env) (lsn : String) (P : List String) (a : String)
    (rest : List String) (fuel : Nat) (res : Int) (t : Trace)
    (hP : ∀ b ∈ P, isAddr b ∧ (standby_body env lsn b).1 = Step.advance)
    (ha : isAddr a) (hb : standby_body env lsn a = (Step.ret res, t))
    (hfuel : P.length < fuel) :
    get_standby_replication env fuel (encode (P ++ a :: rest)) lsn
      = (returned res, body_traces env lsn P ++ t) := by
  obtain ⟨k, rfl⟩ : ∃ k, fuel = (k + 1) + P.length := ⟨fuel - P.length - 1, by omega⟩
  have hbuf : encode (P ++ a :: rest) = [] ++ (pack P ++ (a.data ++ NUL :: (pack rest ++ [NUL]))) := by
    simp [encode, pack_append, pack]
  have h1 := standby_loop_prefix env lsn P [] (a.data ++ NUL :: (pack rest ++ [NUL])) (k + 1) hP
  have h2 := standby_loop_step env lsn a ha (pack P) (pack rest ++ [NUL]) k
  rw [hb] at h2
  simp only [List.nil_append, List.length_nil] at h1 hbuf
  unfold get_standby_replication
  rw [hbuf, h1, h2]

/-- The walk up to an address whose body ends in `continue`. -/
theorem walk_stall (env : Env) (lsn : String) (P : List String) (a : String)
    (rest : List String) (n : Nat)
    (hP : ∀ b ∈ P, isAddr b ∧ (standby_body env lsn b).1 = Step.advance)
    (ha : isAddr a) (hb : (standby_body env lsn a).1 = Step.continue_) :
    get_standby_replication env (n + P.length) (encode (P ++ a :: rest)) lsn
      = (outOfFuel,
          body_traces env lsn P ++ (List.replicate n (standby_body env lsn a).2).flatten) := by
  have hbuf : encode (P ++ a :: rest) = [] ++ (pack P ++ (a.data ++ NUL :: (pack rest ++ [NUL]))) := by
    simp [encode, pack_append, pack]
  have h1 := standby_loop_prefix env lsn P [] (a.data ++ NUL :: (pack rest ++ [NUL])) n hP
  have h2 := standby_loop_stall env lsn a ha (pack P) (pack rest ++ [NUL]) hb n
  simp only [List.nil_append, List.length_nil] at h1 hbuf
  unfold get_standby_replication
  rw [hbuf, h1, h2]

theorem connects_replicate (t : Trace) (a : String) (h : connects t = [a]) (n : Nat) :
    connects (List.replicate n t).flatten = List.replicate n a := by
  induction n with
  | zero => rfl
  | succ n ih => simp [List.replicate_succ, connects_append, h, ih]

/-- The run when the replication-list query fails. -/
theorem main_list_failed (env : Env) (srv : Server) (fuel : Nat)
    (hconn : env.PQconnectdbParams env.dbhost = Except.ok srv)
    (hst : (srv.exec (stat_replication_query (PGconn.mk env.dbhost srv))).status
      ≠ PGRES_TUPLES_OK) :
    main env fuel
      = (returned (-1),
          main_banner env srv ++
          [Event.exec env.dbhost (stat_replication_query (PGconn.mk env.dbhost srv)),
           Event.stderr
             (srv.exec (stat_replication_query (PGconn.mk env.dbhost srv))).errorMessage,
           Event.finish env.dbhost]) := by
  simp [main, connectdb, hconn, get_stream_replication, PQexec, hst, main_banner, PQserverVersion]

/-- The run when the replication list is empty. -/
theorem main_no_standby (env : Env) (srv : Server) (fuel : Nat)
    (hconn : env.PQconnectdbParams env.dbhost = Except.ok srv)
    (hst : (srv.exec (stat_replication_query (PGconn.mk env.dbhost srv))).status
      = PGRES_TUPLES_OK)
    (hrows : (srv.exec (stat_replication_query (PGconn.mk env.dbhost srv))).tuples = []) :
    main env fuel
      = (returned 1,
          main_banner env srv ++
          [Event.exec env.dbhost (stat_replication_query (PGconn.mk env.dbhost srv)),
           Event.stdout "INFO: there is no stream replication\n",
           Event.finish env.dbhost]) := by
  simp [main, connectdb, hconn, get_stream_replication, PQexec, hst, hrows, PQntuples,
    main_banner, PQserverVersion]

/-- The run when the replication list is fine and the current-position query
fails. -/
theorem main_position_failed (env : Env) (srv : Server) (fuel : Nat) (L : List String)
    (hconn : env.PQconnectdbParams env.dbhost = Except.ok srv)
    (hst : (srv.exec (stat_replication_query (PGconn.mk env.dbhost srv))).status
      = PGRES_TUPLES_OK)
    (hrows : client_addrs (srv.exec (stat_replication_query (PGconn.mk env.dbhost srv)))
      = L.map some)
    (hne : L ≠ []) (hnul : ∀ a ∈ L, NUL ∉ a.data)
    (hpos : (srv.exec (current_wal_lsn_query (PGconn.mk env.dbhost srv))).status
      ≠ PGRES_TUPLES_OK) :
    main env fuel
      = (returned 0,
          main_banner env srv ++
          [Event.exec env.dbhost (stat_replication_query (PGconn.mk env.dbhost srv)),
           Event.print (srv.exec (stat_replication_query (PGconn.mk env.dbhost srv))),
           Event.exec env.dbhost (current_wal_lsn_query (PGconn.mk env.dbhost srv)),
           Event.stderr ("ERROR: fetch current " ++
             (if srv.version >= 100000 then "wal lsn" else "xlog location") ++ " failed\n"),
           Event.finish env.dbhost]) := by
  have hs := get_stream_replication_ok env (PGconn.mk env.dbhost srv) none L hst hrows hne hnul
  simp only [PQexec] at hs
  simp [main, connectdb, hconn, hs, get_current_wal_lsn, PQexec, hpos, main_banner,
    PQserverVersion]

/-- The run when both primary queries succeed: it ends the way the walk over
the encoded addresses ends, and the exit status is the value the walk returns. -/
theorem main_walk (env : Env) (srv : Server) (fuel : Nat) (L : List String) (curlsn : String)
    (o : Outcome Int) (t : Trace)
    (hconn : env.PQconnectdbParams env.dbhost = Except.ok srv)
    (hst : (srv.exec (stat_replication_query (PGconn.mk env.dbhost srv))).status
      = PGRES_TUPLES_OK)
    (hrows : client_addrs (srv.exec (stat_replication_query (PGconn.mk env.dbhost srv)))
      = L.map some)
    (hne : L ≠ []) (hnul : ∀ a ∈ L, NUL ∉ a.data)
    (hpos : (srv.exec (current_wal_lsn_query (PGconn.mk env.dbhost srv))).status
      = PGRES_TUPLES_OK)
    (hval : PQgetvalue (srv.exec (current_wal_lsn_query (PGconn.mk env.dbhost srv))) 0 0
      = some curlsn)
    (hwalk : get_standby_replication env fuel (encode L) curlsn = (o, t)) :
    main env fuel
      = (o,
          main_banner env srv ++
          [Event.exec env.dbhost (stat_replication_query (PGconn.mk env.dbhost srv)),
           Event.print (srv.exec (stat_replication_query (PGconn.mk env.dbhost srv))),
           Event.exec env.dbhost (current_wal_lsn_query (PGconn.mk env.dbhost srv)),
           Event.stdout ("current " ++
             (if srv.version > 100000 then "wal lsn" else "xlog location") ++ ": " ++
             curlsn ++ "\n\n")] ++ t ++ main_epilogue env o) := by
  have hs := get_stream_replication_ok env (PGconn.mk env.dbhost srv) none L hst hrows hne hnul
  simp only [PQexec] at hs
  cases o with
  | returned res =>
    by_cases hr : res = 0
    · subst hr
      simp [main, connectdb, hconn, hs, get_current_wal_lsn, PQexec, hpos, hval, hwalk,
        main_banner, PQserverVersion, main_epilogue]
    · simp [main, connectdb, hconn, hs, get_current_wal_lsn, PQexec, hpos, hval, hwalk,
        main_banner, PQserverVersion, hr, main_epilogue]
  | crashed =>
    simp [main, connectdb, hconn, hs, get_current_wal_lsn, PQexec, hpos, hval, hwalk,
      main_banner, PQserverVersion, main_epilogue]
  | outOfFuel =>
    simp [main, connectdb, hconn, hs, get_current_wal_lsn, PQexec, hpos, hval, hwalk,
      main_banner, PQserverVersion, main_epilogue]

theorem connects_main_walk (env : Env) (srv : Server) (q1 q2 text : String) (r : PGresult)
    (t : Trace) (o : Outcome Int) :
    connects (main_banner env srv ++
      [Event.exec env.dbhost q1, Event.print r, Event.exec env.dbhost q2, Event.stdout text] ++
      t ++ main_epilogue env o) = env.dbhost :: connects t := by
  cases o <;> simp [connects_append, main_banner, main_epilogue, connects]

theorem execs_visit_trace (client query : String) (result : PGresult) (delay sql : String)
    (lsnres : PGresult) :
    execs (visit_trace client query result delay sql lsnres)
      = (client, query) :: (if delay = "0" then [] else [(client, sql)]) := by
  unfold visit_trace
  by_cases hd : delay = "0"
  · simp [hd, execs]
  · by_cases hl : lsnres.status = PGRES_TUPLES_OK <;> simp [hd, hl, execs]

theorem format_PG10_WAL_DELAY_SIZE (x y : String) :
    format PG10_WAL_DELAY_SIZE.data [x, y]
      = "SELECT pg_size_pretty(pg_wal_lsn_diff('".data ++
          (x.data ++ ("', '".data ++ (y.data ++ "')) AS wal_delay_size".data))) := by
  rfl

theorem format_PG9X_XLOG_DELAY_SIZE (x y : String) :
    format PG9X_XLOG_DELAY_SIZE.data [x, y]
      = "SELECT pg_size_pretty(pg_xlog_location_diff('".data ++
          (x.data ++ ("', '".data ++ (y.data ++ "')) AS xlog_delay_size".data))) := by
  rfl

theorem snprintf_PG10_WAL_DELAY_SIZE (x y : String) (h : x.length + y.length ≤ 952) :
    snprintf 1024 PG10_WAL_DELAY_SIZE [x, y]
      = "SELECT pg_size_pretty(pg_wal_lsn_diff('" ++ x ++ "', '" ++ y ++
          "')) AS wal_delay_size" := by
  unfold snprintf
  rw [format_PG10_WAL_DELAY_SIZE, List.take_of_length_le]
  · apply String.ext
    simp [String.data_append]
  · have hx : x.length = x.data.length := rfl
    have hy : y.length = y.data.length := rfl
    simp only [List.length_append, List.length_cons, List.length_nil]
    omega

theorem snprintf_PG9X_XLOG_DELAY_SIZE (x y : String) (h : x.length + y.length ≤ 952) :
    snprintf 1024 PG9X_XLOG_DELAY_SIZE [x, y]
      = "SELECT pg_size_pretty(pg_xlog_location_diff('" ++ x ++ "', '" ++ y ++
          "')) AS xlog_delay_size" := by
  unfold snprintf
  rw [format_PG9X_XLOG_DELAY_SIZE, List.take_of_length_le]
  · apply String.ext
    simp [String.data_append]
  · have hx : x.length = x.data.length := rfl
    have hy : y.length = y.data.length := rfl
    simp only [List.length_append, List.length_cons, List.length_nil]
    omega

theorem length_pack (L : List String) :
    (pack L).length = (L.map (fun a => a.length + 1)).sum := by
  induction L with
  | nil => rfl
  | cons a L ih =>
    have ha : a.length = a.data.length := rfl
    simp only [pack, List.length_append, List.length_cons, ih, List.map_cons, List.sum_cons, ha]
    omega

theorem pack_ends_with_nul (L : List String) (h : L ≠ []) :
    ∃ front, pack L = front ++ [NUL] := by
  induction L with
  | nil => exact absurd rfl h
  | cons a L ih =>
    cases L with
    | nil => exact ⟨a.data, by simp [pack]⟩
    | cons b L =>
      obtain ⟨front, hf⟩ := ih (by simp)
      refine ⟨a.data ++ NUL :: front, ?_⟩
      rw [pack, hf]
      simp

theorem execs_get_stream_replication (env : Env) (db : PGconn)
    (sb : Option (Option (List Char))) :
    execs (get_stream_replication env db sb).2 = [(db.host, stat_replication_query db)] := by
  unfold get_stream_replication
  simp only
  split
  · rfl
  · split
    · rfl
    · split
      · rfl
      · split
        · rfl
        · split <;> rfl

theorem execs_get_current_wal_lsn (db : PGconn) :
    execs (get_current_wal_lsn db).2 = [(db.host, current_wal_lsn_query db)] := by
  unfold get_current_wal_lsn
  simp only
  split
  · rfl
  · split <;> rfl

theorem execs_standby_body (env : Env) (lsn client : String) (srv : Server)
    (h : env.PQconnectdbParams client = Except.ok srv) :
    ∀ q ∈ execs (standby_body env lsn client).2,
      q = (client, standby_health_query (PGconn.mk client srv)) ∨
      ∃ replsn, q = (client, snprintf 1024 (delay_size_query (PGconn.mk client srv))
        [lsn, replsn]) := by
  intro q hq
  by_cases hs : (srv.exec (standby_health_query (PGconn.mk client srv))).status = PGRES_TUPLES_OK
  · cases h5 : PQgetvalue (srv.exec (standby_health_query (PGconn.mk client srv))) 0 5 with
    | none =>
      have : execs (standby_body env lsn client).2
          = [(client, standby_health_query (PGconn.mk client srv))] := by
        simp [standby_body, connectdb, h, PQexec, hs, h5, execs]
      rw [this] at hq
      left; simpa using hq
    | some delay =>
      obtain ⟨replsn, h3⟩ := PQgetvalue_col3_of_col5 _ delay h5
      rw [standby_body_ok env lsn client srv delay replsn h hs h5 h3, execs_visit_trace] at hq
      by_cases hd : delay = "0"
      · simp only [hd, if_true, List.mem_singleton] at hq
        left; exact hq
      · simp only [hd, if_false, List.mem_cons, List.mem_singleton, List.not_mem_nil,
          or_false] at hq
        rcases hq with hq | hq
        · left; exact hq
        · right; exact ⟨replsn, hq⟩
  · rw [standby_body_health_failed env lsn client srv h hs] at hq
    left; simpa [execs] using hq

theorem body_traces_eq_flatten (env : Env) (lsn : String) (L : List String) :
    body_traces env lsn L = (L.map (fun a => (standby_body env lsn a).2)).flatten := by
  induction L with
  | nil => rfl
  | cons a L ih => simp [body_traces, ih]

/-- The walk on addresses that are all non-empty: for every non-empty
replication list all of whose `client_addr` values are non-empty, when every
connection opens and every health query succeeds, `get_stream_replication` returns 0 with a block over
which `get_standby_replication` returns 0 having connected to exactly the
`client_addr` values, in order, duplicates kept; so does the run of `main`. -/
theorem main_visits_nonempty_client_addrs (env : Env) (srv : Server) (fuel : Nat)
    (L : List String) (curlsn : String)
    (hconn : env.PQconnectdbParams env.dbhost = Except.ok srv)
    (hst : (srv.exec (stat_replication_query (PGconn.mk env.dbhost srv))).status
      = PGRES_TUPLES_OK)
    (hrows : client_addrs (srv.exec (stat_replication_query (PGconn.mk env.dbhost srv)))
      = L.map some)
    (hne : L ≠ [])
    (haddr : ∀ a ∈ L, isAddr a)
    (hpos : (srv.exec (current_wal_lsn_query (PGconn.mk env.dbhost srv))).status
      = PGRES_TUPLES_OK)
    (hval : PQgetvalue (srv.exec (current_wal_lsn_query (PGconn.mk env.dbhost srv))) 0 0
      = some curlsn)
    (hhealthy : ∀ a ∈ L, healthy env a = true)
    (hfuel : L.length < fuel) :
    ∃ buf,
      (get_stream_replication env (PGconn.mk env.dbhost srv) (some none)).1
        = returned (0, some (some buf)) ∧
      (get_standby_replication env fuel buf curlsn).1 = returned 0 ∧
      connects (get_standby_replication env fuel buf curlsn).2 = L ∧
      (main env fuel).1 = returned 0 ∧
      connects (main env fuel).2 = env.dbhost :: L := by
  have hs := get_stream_replication_ok env (PGconn.mk env.dbhost srv) none L hst hrows hne
    (fun a ha => (haddr a ha).2)
  have hw := standby_loop_all env curlsn L fuel
    (fun a ha => ⟨haddr a ha, (healthy_body env curlsn a (hhealthy a ha)).1⟩) hfuel
  have hc := connects_body_traces env curlsn L hhealthy
  have hm := main_walk env srv fuel L curlsn _ _ hconn hst hrows hne
    (fun a ha => (haddr a ha).2) hpos hval hw
  refine ⟨encode L, by rw [hs], by rw [hw], by rw [hw]; exact hc, by rw [hm], ?_⟩
  rw [hm, connects_main_walk, hc]

/-! ## The claims -/

set_option maxRecDepth 100000

/-- C1 (the code departs from the claim): with the addresses 10.0.0.2,
10.0.0.3, 10.0.0.4 of which only 10.0.0.3 is unreachable,
`get_standby_replication` does not terminate: whatever the number `n + 1` of
passes allowed through the loop, it is still running, and the connection
attempts made are 10.0.0.2 once and then 10.0.0.3 `n` times; 10.0.0.4 is never
attempted. The same holds of the whole run of `main`. -/
theorem C1_unreachable_standby_is_retried_forever :
    ∀ n : Nat,
      (get_standby_replication env_unreachable (n + 1)
        (encode ["10.0.0.2", "10.0.0.3", "10.0.0.4"]) "0/3000060").1 = outOfFuel ∧
      connects (get_standby_replication env_unreachable (n + 1)
        (encode ["10.0.0.2", "10.0.0.3", "10.0.0.4"]) "0/3000060").2
        = "10.0.0.2" :: List.replicate n "10.0.0.3" ∧
      (main env_unreachable (n + 1)).1 = outOfFuel ∧
      connects (main env_unreachable (n + 1)).2
        = "10.0.0.1" :: "10.0.0.2" :: List.replicate n "10.0.0.3" := by
  intro n
  have hA : healthy env_unreachable "10.0.0.2" = true := by decide
  have hB : env_unreachable.PQconnectdbParams "10.0.0.3"
      = Except.error "could not connect to server\n" := rfl
  have hbB := standby_body_unreachable env_unreachable "0/3000060" "10.0.0.3" _ hB
  have hw : get_standby_replication env_unreachable (n + 1)
      (encode ["10.0.0.2", "10.0.0.3", "10.0.0.4"]) "0/3000060"
      = (outOfFuel, body_traces env_unreachable "0/3000060" ["10.0.0.2"] ++
          (List.replicate n (standby_body env_unreachable "0/3000060" "10.0.0.3").2).flatten) :=
    walk_stall env_unreachable "0/3000060" ["10.0.0.2"] "10.0.0.3" ["10.0.0.4"] n
    (by
      intro b hb
      have : b = "10.0.0.2" := by simpa using hb
      subst this
      exact ⟨by decide, (healthy_body _ _ _ hA).1⟩)
    (by decide) (by rw [hbB])
  have hc : connects (body_traces env_unreachable "0/3000060" ["10.0.0.2"] ++
      (List.replicate n (standby_body env_unreachable "0/3000060" "10.0.0.3").2).flatten)
      = "10.0.0.2" :: List.replicate n "10.0.0.3" := by
    rw [connects_append, connects_replicate _ "10.0.0.3" (by rw [hbB]; rfl),
      connects_body_traces _ _ _ (by
        intro b hb
        have : b = "10.0.0.2" := by simpa using hb
        subst this
        exact hA)]
    rfl
  have hm := main_walk env_unreachable _ (n + 1) ["10.0.0.2", "10.0.0.3", "10.0.0.4"]
    "0/3000060" _ _ rfl (by decide) (by decide) (by decide) (by decide) (by decide) (by decide) hw
  refine ⟨by rw [hw], by rw [hw]; exact hc, by rw [hm], ?_⟩
  rw [hm, connects_main_walk, hc]
  rfl

/-- C2 (the code departs from the claim): on a primary whose replication list
is fine (one standby) and whose current-position query is denied, `main`
attempts no standby connection but returns exit status 0, not a non-zero one. -/
theorem C2_position_failure_exits_zero :
    ∀ fuel : Nat,
      (PQexec (PGconn.mk "10.0.0.1"
          (primary_server 120000 (tuples_ok [replication_row "10.0.0.2"]) query_failed))
        "SELECT pg_current_wal_lsn()").status = PGRES_FATAL_ERROR ∧
      (main env_position_denied fuel).1 = returned 0 ∧
      connects (main env_position_denied fuel).2 = ["10.0.0.1"] := by
  intro fuel
  have hm := main_position_failed env_position_denied _ fuel ["10.0.0.2"] rfl
    (by decide) (by decide) (by decide) (by decide) (by decide)
  refine ⟨by decide, by rw [hm], ?_⟩
  rw [hm]
  decide

/-- C3, counterexample: on a primary whose replication list succeeds with zero
rows, `main` returns 1, not 0. -/
theorem C3_counterexample :
    (PQexec (PGconn.mk "10.0.0.1"
        (primary_server 120000 (tuples_ok []) (tuples_ok [["0/3000060"]])))
      PG10_STAT_REPLICATION).status = PGRES_TUPLES_OK ∧
    PQntuples (PQexec (PGconn.mk "10.0.0.1"
        (primary_server 120000 (tuples_ok []) (tuples_ok [["0/3000060"]])))
      PG10_STAT_REPLICATION) = 0 ∧
    (main env_no_standby 1).1 = returned 1 ∧
    (main env_no_standby 1).1 ≠ returned 0 := by
  decide

/-- C3, amended: when the primary connection opens and the replication-list
query succeeds with zero rows, `main` prints the line
`INFO: there is no stream replication`, writes nothing to stderr, sends no
further query, attempts no standby connection, closes the primary connection
and returns exit status 1. -/
theorem C3_no_standby_reported_exit_one (env : Env) (srv : Server) (fuel : Nat)
    (hconn : env.PQconnectdbParams env.dbhost = Except.ok srv)
    (hst : (srv.exec (stat_replication_query (PGconn.mk env.dbhost srv))).status
      = PGRES_TUPLES_OK)
    (hrows : (srv.exec (stat_replication_query (PGconn.mk env.dbhost srv))).tuples = []) :
    main env fuel
      = (returned 1,
          [Event.connect env.dbhost,
           Event.stdout ("server version: " ++ toString srv.version ++ ", client version: " ++
             toString env.PG_VERSION_NUM ++ "\n"),
           Event.stdout ("\n[MASTER]: " ++ env.dbhost ++ "\n"),
           Event.exec env.dbhost (stat_replication_query (PGconn.mk env.dbhost srv)),
           Event.stdout "INFO: there is no stream replication\n",
           Event.finish env.dbhost]) := by
  rw [main_no_standby env srv fuel hconn hst hrows]
  rfl

/-- C3, amended, on the example primary without standbys. -/
theorem C3_no_standby_witness :
    (main env_no_standby 0).1 = returned 1 ∧
    connects (main env_no_standby 0).2 = ["10.0.0.1"] ∧
    Event.stdout "INFO: there is no stream replication\n" ∈ (main env_no_standby 0).2 := by
  have h := C3_no_standby_reported_exit_one env_no_standby
    (primary_server 120000 (tuples_ok []) (tuples_ok [["0/3000060"]])) 0 rfl
    (by decide) (by decide)
  rw [h]
  decide

/-- C4, counterexample: two reachable standbys, 10.0.0.2 and 10.0.0.3, both
primary queries fine, the health query of 10.0.0.2 denied: the walk returns -1
after 10.0.0.2, 10.0.0.3 is never attempted and `main` returns -1. -/
theorem C4_counterexample :
    health_fails env_health_denied "10.0.0.2" = true ∧
    healthy env_health_denied "10.0.0.3" = true ∧
    (get_standby_replication env_health_denied 5 (encode ["10.0.0.2", "10.0.0.3"])
      "0/3000060").1 = returned (-1) ∧
    connects (get_standby_replication env_health_denied 5 (encode ["10.0.0.2", "10.0.0.3"])
      "0/3000060").2 = ["10.0.0.2"] ∧
    (main env_health_denied 5).1 = returned (-1) ∧
    connects (main env_health_denied 5).2 = ["10.0.0.1", "10.0.0.2"] := by
  decide

/-- C4, amended: when the primary queries succeed and the addresses are
non-empty, the walk ends at the first standby whose health query does not
succeed (the standbys before it being reachable and healthy):
`get_standby_replication` returns -1 having attempted the addresses up to and
including that one and none after it, and `main` returns exit status -1. -/
theorem C4_health_failure_aborts_walk (env : Env) (srv : Server) (fuel : Nat)
    (before after : List String) (a curlsn : String)
    (hconn : env.PQconnectdbParams env.dbhost = Except.ok srv)
    (hst : (srv.exec (stat_replication_query (PGconn.mk env.dbhost srv))).status
      = PGRES_TUPLES_OK)
    (hrows : client_addrs (srv.exec (stat_replication_query (PGconn.mk env.dbhost srv)))
      = (before ++ a :: after).map some)
    (haddr : ∀ b ∈ before ++ a :: after, isAddr b)
    (hpos : (srv.exec (current_wal_lsn_query (PGconn.mk env.dbhost srv))).status
      = PGRES_TUPLES_OK)
    (hval : PQgetvalue (srv.exec (current_wal_lsn_query (PGconn.mk env.dbhost srv))) 0 0
      = some curlsn)
    (hbefore : ∀ b ∈ before, healthy env b = true)
    (hfail : health_fails env a = true)
    (hfuel : before.length < fuel) :
    (get_standby_replication env fuel (encode (before ++ a :: after)) curlsn).1
      = returned (-1) ∧
    connects (get_standby_replication env fuel (encode (before ++ a :: after)) curlsn).2
      = before ++ [a] ∧
    (main env fuel).1 = returned (-1) ∧
    connects (main env fuel).2 = env.dbhost :: (before ++ [a]) := by
  have hb := health_fails_body env curlsn a hfail
  rcases hbody : standby_body env curlsn a with ⟨st, t⟩
  rw [hbody] at hb
  obtain ⟨hst1, hct⟩ := hb
  simp only at hst1 hct
  subst hst1
  have hw := walk_ret env curlsn before a after fuel (-1) t
    (fun b hb => ⟨haddr b (by simp [hb]), (healthy_body env curlsn b (hbefore b hb)).1⟩)
    (haddr a (by simp)) hbody hfuel
  have hc : connects (body_traces env curlsn before ++ t) = before ++ [a] := by
    rw [connects_append, connects_body_traces env curlsn before hbefore, hct]
  have hm := main_walk env srv fuel (before ++ a :: after) curlsn _ _ hconn hst hrows
    (by simp) (fun b hb => (haddr b hb).2) hpos hval hw
  refine ⟨by rw [hw], by rw [hw]; exact hc, by rw [hm], ?_⟩
  rw [hm, connects_main_walk, hc]

/-- C4, amended, on the example in which 10.0.0.2 denies the health query. -/
theorem C4_health_failure_witness :
    (main env_health_denied 1).1 = returned (-1) ∧
    connects (main env_health_denied 1).2 = "10.0.0.1" :: ([] ++ ["10.0.0.2"]) :=
  (C4_health_failure_aborts_walk env_health_denied
    (primary_server 120000
      (tuples_ok [replication_row "10.0.0.2", replication_row "10.0.0.3"])
      (tuples_ok [["0/3000060"]])) 1 [] ["10.0.0.3"] "10.0.0.2" "0/3000060"
    rfl (by decide) (by decide) (by decide) (by decide) (by decide) (by decide) (by decide)
    (by decide)).2.2

/-- C5 (the code departs from the claim): an empty `client_addr` in the
replication list ends the walk. With the rows 10.0.0.2, empty, 10.0.0.4 (every
host accepting connections and healthy) `get_stream_replication` stores all
three addresses, the block being `10.0.0.2 NUL NUL 10.0.0.4 NUL NUL`, but the
walk over it connects to 10.0.0.2 only and returns 0: the stored 10.0.0.4 is
never visited. With the rows empty, 10.0.0.3 the block is
`NUL 10.0.0.3 NUL NUL` and the walk connects to no standby at all. In both
cases `main` returns 0. -/
theorem C5_empty_client_addr_ends_walk :
    (client_addrs (PQexec (PGconn.mk "10.0.0.1"
        (primary_server 120000
          (tuples_ok [replication_row "10.0.0.2", replication_row "", replication_row "10.0.0.4"])
          (tuples_ok [["0/3000060"]]))) PG10_STAT_REPLICATION)
      = [some "10.0.0.2", some "", some "10.0.0.4"] ∧
     healthy env_empty_addr_between "10.0.0.2" = true ∧
     healthy env_empty_addr_between "" = true ∧
     healthy env_empty_addr_between "10.0.0.4" = true ∧
     (get_stream_replication env_empty_addr_between (PGconn.mk "10.0.0.1"
        (primary_server 120000
          (tuples_ok [replication_row "10.0.0.2", replication_row "", replication_row "10.0.0.4"])
          (tuples_ok [["0/3000060"]]))) (some none)).1
       = returned (0, some (some
          ("10.0.0.2".data ++ [NUL, NUL] ++ "10.0.0.4".data ++ [NUL, NUL]))) ∧
     (get_standby_replication env_empty_addr_between 5
        ("10.0.0.2".data ++ [NUL, NUL] ++ "10.0.0.4".data ++ [NUL, NUL]) "0/3000060").1
       = returned 0 ∧
     connects (get_standby_replication env_empty_addr_between 5
        ("10.0.0.2".data ++ [NUL, NUL] ++ "10.0.0.4".data ++ [NUL, NUL]) "0/3000060").2
       = ["10.0.0.2"] ∧
     (main env_empty_addr_between 5).1 = returned 0 ∧
     connects (main env_empty_addr_between 5).2 = ["10.0.0.1", "10.0.0.2"]) ∧
    (client_addrs (PQexec (PGconn.mk "10.0.0.1"
        (primary_server 120000 (tuples_ok [replication_row "", replication_row "10.0.0.3"])
          (tuples_ok [["0/3000060"]]))) PG10_STAT_REPLICATION)
      = [some "", some "10.0.0.3"] ∧
     healthy env_empty_addr "" = true ∧ healthy env_empty_addr "10.0.0.3" = true ∧
     (get_stream_replication env_empty_addr (PGconn.mk "10.0.0.1"
        (primary_server 120000 (tuples_ok [replication_row "", replication_row "10.0.0.3"])
          (tuples_ok [["0/3000060"]]))) (some none)).1
       = returned (0, some (some (NUL :: ("10.0.0.3".data ++ [NUL, NUL])))) ∧
     connects (get_standby_replication env_empty_addr 5
        (NUL :: ("10.0.0.3".data ++ [NUL, NUL])) "0/3000060").2 = [] ∧
     (main env_empty_addr 5).1 = returned 0 ∧
     connects (main env_empty_addr 5).2 = ["10.0.0.1"]) := by
  decide

/-- C6: for a standby whose connection opens and whose health query succeeds
with a row that has a delay column (index 5), the queries sent on that
connection are the health query followed, exactly when the delay column is not
the string `0`, by one lag-size query; when it is `0` the visit consists of
the connection, the `[STANDBY]` line, the health query, the rendering of the
health row and the closing of the connection, and nothing else. -/
theorem C6_lag_size_query_iff_delay_nonzero (env : Env) (lsn client : String) (srv : Server)
    (delay : String)
    (hconn : env.PQconnectdbParams client = Except.ok srv)
    (hs : (srv.exec (standby_health_query (PGconn.mk client srv))).status = PGRES_TUPLES_OK)
    (h5 : PQgetvalue (srv.exec (standby_health_query (PGconn.mk client srv))) 0 5
      = some delay) :
    ∃ replsn,
      PQgetvalue (srv.exec (standby_health_query (PGconn.mk client srv))) 0 3 = some replsn ∧
      execs (standby_body env lsn client).2
        = (client, standby_health_query (PGconn.mk client srv)) ::
            (if delay = "0" then []
             else [(client, snprintf 1024 (delay_size_query (PGconn.mk client srv))
               [lsn, replsn])]) ∧
      (delay = "0" →
        (standby_body env lsn client).2
          = [Event.connect client, Event.stdout ("[STANDBY]: " ++ client ++ "\n"),
             Event.exec client (standby_health_query (PGconn.mk client srv)),
             Event.print (srv.exec (standby_health_query (PGconn.mk client srv))),
             Event.finish client]) := by
  obtain ⟨replsn, h3⟩ := PQgetvalue_col3_of_col5 _ delay h5
  refine ⟨replsn, h3, ?_, ?_⟩
  · rw [standby_body_ok env lsn client srv delay replsn hconn hs h5 h3, execs_visit_trace]
  · intro hd
    rw [standby_body_ok env lsn client srv delay replsn hconn hs h5 h3]
    simp [visit_trace, hd]

/-- C6 on the example with a caught-up standby (one query) and a lagging one (two). -/
theorem C6_lag_size_query_witness :
    (execs (standby_body env_two_standbys "0/3000060" "10.0.0.2").2).length = 1 ∧
    (execs (standby_body env_two_standbys "0/3000060" "10.0.0.3").2).length = 2 := by
  obtain ⟨r2, _, h2, _⟩ := C6_lag_size_query_iff_delay_nonzero env_two_standbys "0/3000060"
    "10.0.0.2" (standby_server 120000 caught_up size_ok) "0" rfl (by decide) (by decide)
  obtain ⟨r3, _, h3, _⟩ := C6_lag_size_query_iff_delay_nonzero env_two_standbys "0/3000060"
    "10.0.0.3" (standby_server 90600 lagging size_ok) "1.5" rfl (by decide) (by decide)
  rw [h2, h3]
  exact ⟨by simp, by simp⟩

/-- C7: on a connection that reports version `v`, each of the four
dialect-dependent query texts (replication list, current position, standby
health, lag-size format) is the PG10 one exactly when `v >= 100000` and the
PG9X one exactly when `v < 100000`; these are the queries the functions send:
the only query of `get_stream_replication` and of `get_current_wal_lsn` is the
one selected for the connection passed in, and every query of the loop body is
the health query or an expansion of the lag-size format selected for the
standby's own connection. -/
theorem C7_dialect_selection (env : Env) (db : PGconn)
    (sb : Option (Option (List Char))) (lsn client : String) (srv : Server) :
    ((stat_replication_query db = PG10_STAT_REPLICATION ↔ PQserverVersion db ≥ 100000) ∧
     (stat_replication_query db = PG9X_STAT_REPLICATION ↔ PQserverVersion db < 100000)) ∧
    ((current_wal_lsn_query db = "SELECT pg_current_wal_lsn()" ↔ PQserverVersion db ≥ 100000) ∧
     (current_wal_lsn_query db = "SELECT pg_current_xlog_location()"
        ↔ PQserverVersion db < 100000)) ∧
    ((standby_health_query db = PG10_STANDBY_REPLICATION_HEALTH
        ↔ PQserverVersion db ≥ 100000) ∧
     (standby_health_query db = PG9X_STANDBY_REPLICATION_HEALTH
        ↔ PQserverVersion db < 100000)) ∧
    ((delay_size_query db = PG10_WAL_DELAY_SIZE ↔ PQserverVersion db ≥ 100000) ∧
     (delay_size_query db = PG9X_XLOG_DELAY_SIZE ↔ PQserverVersion db < 100000)) ∧
    execs (get_stream_replication env db sb).2 = [(db.host, stat_replication_query db)] ∧
    execs (get_current_wal_lsn db).2 = [(db.host, current_wal_lsn_query db)] ∧
    (env.PQconnectdbParams client = Except.ok srv →
      ∀ q ∈ execs (standby_body env lsn client).2,
        q = (client, standby_health_query (PGconn.mk client srv)) ∨
        ∃ replsn, q = (client, snprintf 1024 (delay_size_query (PGconn.mk client srv))
          [lsn, replsn])) := by
  have n1 : PG9X_STAT_REPLICATION ≠ PG10_STAT_REPLICATION := by decide
  have n2 : ("SELECT pg_current_xlog_location()" : String) ≠ "SELECT pg_current_wal_lsn()" := by
    decide
  have n3 : PG9X_STANDBY_REPLICATION_HEALTH ≠ PG10_STANDBY_REPLICATION_HEALTH := by decide
  have n4 : PG9X_XLOG_DELAY_SIZE ≠ PG10_WAL_DELAY_SIZE := by decide
  refine ⟨?_, ?_, ?_, ?_, execs_get_stream_replication env db sb,
    execs_get_current_wal_lsn db, execs_standby_body env lsn client srv⟩
  · unfold stat_replication_query
    by_cases h : PQserverVersion db ≥ 100000
    · simp only [h, if_true, true_iff, iff_true]
      exact ⟨trivial, fun e => absurd e.symm n1, by omega⟩
    · simp only [h, if_false, iff_false, true_iff]
      exact ⟨n1, by omega⟩
  · unfold current_wal_lsn_query
    by_cases h : PQserverVersion db ≥ 100000
    · simp only [h, if_true, true_iff, iff_true]
      exact ⟨trivial, fun e => absurd e.symm n2, by omega⟩
    · simp only [h, if_false, iff_false, true_iff]
      exact ⟨n2, by omega⟩
  · unfold standby_health_query
    by_cases h : PQserverVersion db ≥ 100000
    · simp only [h, if_true, true_iff, iff_true]
      exact ⟨trivial, fun e => absurd e.symm n3, by omega⟩
    · simp only [h, if_false, iff_false, true_iff]
      exact ⟨n3, by omega⟩
  · unfold delay_size_query
    by_cases h : PQserverVersion db ≥ 100000
    · simp only [h, if_true, true_iff, iff_true]
      exact ⟨trivial, fun e => absurd e.symm n4, by omega⟩
    · simp only [h, if_false, iff_false, true_iff]
      exact ⟨n4, by omega⟩

/-- C7 at the versions 99999 and 100000, and on the example standby of version 9.6. -/
theorem C7_dialect_boundary_witness :
    stat_replication_query (PGconn.mk "10.0.0.2" (standby_server 99999 caught_up size_ok))
      = PG9X_STAT_REPLICATION ∧
    delay_size_query (PGconn.mk "10.0.0.2" (standby_server 99999 caught_up size_ok))
      = PG9X_XLOG_DELAY_SIZE ∧
    standby_health_query (PGconn.mk "10.0.0.2" (standby_server 100000 caught_up size_ok))
      = PG10_STANDBY_REPLICATION_HEALTH ∧
    current_wal_lsn_query (PGconn.mk "10.0.0.2" (standby_server 100000 caught_up size_ok))
      = "SELECT pg_current_wal_lsn()" ∧
    (∀ q ∈ execs (standby_body env_two_standbys "0/3000060" "10.0.0.3").2,
      q = ("10.0.0.3", PG9X_STANDBY_REPLICATION_HEALTH) ∨
      ∃ replsn, q = ("10.0.0.3", snprintf 1024 PG9X_XLOG_DELAY_SIZE ["0/3000060", replsn])) :=
  ⟨((C7_dialect_selection env_two_standbys
        (PGconn.mk "10.0.0.2" (standby_server 99999 caught_up size_ok)) none "" ""
        (standby_server 99999 caught_up size_ok)).1.2).2 (by decide),
   ((C7_dialect_selection env_two_standbys
        (PGconn.mk "10.0.0.2" (standby_server 99999 caught_up size_ok)) none "" ""
        (standby_server 99999 caught_up size_ok)).2.2.2.1.2).2 (by decide),
   ((C7_dialect_selection env_two_standbys
        (PGconn.mk "10.0.0.2" (standby_server 100000 caught_up size_ok)) none "" ""
        (standby_server 100000 caught_up size_ok)).2.2.1.1).2 (by decide),
   ((C7_dialect_selection env_two_standbys
        (PGconn.mk "10.0.0.2" (standby_server 100000 caught_up size_ok)) none "" ""
        (standby_server 100000 caught_up size_ok)).2.1.1).2 (by decide),
   (C7_dialect_selection env_two_standbys
        (PGconn.mk "10.0.0.3" (standby_server 90600 lagging size_ok)) none "0/3000060"
        "10.0.0.3" (standby_server 90600 lagging size_ok)).2.2.2.2.2.2 rfl⟩

/-- C8: for a standby on which the lag-size query is issued (connection open,
health query successful, delay column not `0`), with `lsn` the primary's
current position and `replsn` column 3 of the standby's own health row, the
queries sent are the health query and then the standby's dialect lag-size
format with its first `%s` replaced by `lsn` and its second by `replsn`,
nothing else changed, as long as the two values together take at most 952
bytes, so that the text fits the 1024-byte buffer (an LSN text takes at most 17
bytes). Column 3 is the `last_replay_lsn` column of both health queries. -/
theorem C8_lag_size_query_parameters (env : Env) (lsn client : String) (srv : Server)
    (delay replsn : String)
    (hconn : env.PQconnectdbParams client = Except.ok srv)
    (hs : (srv.exec (standby_health_query (PGconn.mk client srv))).status = PGRES_TUPLES_OK)
    (h5 : PQgetvalue (srv.exec (standby_health_query (PGconn.mk client srv))) 0 5
      = some delay)
    (hd : delay ≠ "0")
    (h3 : PQgetvalue (srv.exec (standby_health_query (PGconn.mk client srv))) 0 3
      = some replsn)
    (hlen : lsn.length + replsn.length ≤ 952) :
    execs (standby_body env lsn client).2
      = [(client, standby_health_query (PGconn.mk client srv)),
         (client,
           if srv.version ≥ 100000 then
             "SELECT pg_size_pretty(pg_wal_lsn_diff('" ++ lsn ++ "', '" ++ replsn ++
               "')) AS wal_delay_size"
           else
             "SELECT pg_size_pretty(pg_xlog_location_diff('" ++ lsn ++ "', '" ++ replsn ++
               "')) AS xlog_delay_size")] ∧
    PG10_WAL_DELAY_SIZE
      = "SELECT pg_size_pretty(pg_wal_lsn_diff('" ++ "%s" ++ "', '" ++ "%s" ++
          "')) AS wal_delay_size" ∧
    PG9X_XLOG_DELAY_SIZE
      = "SELECT pg_size_pretty(pg_xlog_location_diff('" ++ "%s" ++ "', '" ++ "%s" ++
          "')) AS xlog_delay_size" ∧
    PG10_HEALTH_COLUMNS[3]? = some "pg_last_wal_replay_lsn() AS last_replay_lsn" ∧
    PG9X_HEALTH_COLUMNS[3]? = some "pg_last_xlog_replay_location() AS last_replay_lsn" := by
  refine ⟨?_, by decide, by decide, by decide, by decide⟩
  rw [standby_body_ok env lsn client srv delay replsn hconn hs h5 h3, execs_visit_trace]
  simp only [hd, if_false]
  by_cases hv : srv.version ≥ 100000
  · simp only [delay_size_query, PQserverVersion, hv, if_true,
      snprintf_PG10_WAL_DELAY_SIZE lsn replsn hlen]
  · simp only [delay_size_query, PQserverVersion, hv, if_false,
      snprintf_PG9X_XLOG_DELAY_SIZE lsn replsn hlen]

/-- C8 on the lagging example standby, which runs version 9.6. -/
theorem C8_lag_size_query_witness :
    execs (standby_body env_two_standbys "0/3000060" "10.0.0.3").2
      = [("10.0.0.3", PG9X_STANDBY_REPLICATION_HEALTH),
         ("10.0.0.3",
           "SELECT pg_size_pretty(pg_xlog_location_diff('0/3000060', '0/3000000')) " ++
             "AS xlog_delay_size")] := by
  have h := (C8_lag_size_query_parameters env_two_standbys "0/3000060" "10.0.0.3"
    (standby_server 90600 lagging size_ok) "1.5" "0/3000000" rfl (by decide)
    (by decide) (by decide) (by decide) (by decide)).1
  rw [h]
  decide

/-- C9 (the code departs from the claim): on a primary that reports version
100000 (release 10.0) the replication-list query and the current-position
query sent are the PG10 ones, while the label `main` prints with the position
is the PG9X one, `xlog location`. -/
theorem C9_label_disagrees_at_100000 :
    PQserverVersion (PGconn.mk "10.0.0.1"
      (primary_server 100000 (tuples_ok [replication_row "10.0.0.2"])
        (tuples_ok [["0/3000060"]]))) = 100000 ∧
    execs (main env_pg10_0 2).2
      = [("10.0.0.1", PG10_STAT_REPLICATION), ("10.0.0.1", "SELECT pg_current_wal_lsn()"),
         ("10.0.0.2", PG10_STANDBY_REPLICATION_HEALTH)] ∧
    Event.stdout "current xlog location: 0/3000060\n\n" ∈ (main env_pg10_0 2).2 ∧
    Event.stdout "current wal lsn: 0/3000060\n\n" ∉ (main env_pg10_0 2).2 ∧
    (main env_pg10_0 2).1 = returned 0 := by
  decide

/-- C10: for a non-empty list `L` of addresses, each non-empty and free of NUL
bytes, returned as column 0 of a successful replication list,
`get_stream_replication` returns 0 without any out-of-bounds store (the copy
loop ends with the allocated length equal to the block length and the write
position one below it) and the block `buf` it stores has length
(sum of len(a)+1 over `L`) + 1 and ends with two NUL bytes.
`get_standby_replication` splits it into exactly `L`: in every environment in
which the loop body reaches the advance of line 349 on each address of `L`,
the walk over `buf` returns 0 once more than `L.length` passes are allowed, the strings
it hands to the body are the elements of `L` in order (its trace is the
concatenation of the body's traces over `L`), and when the standbys are
reachable and healthy the hosts it connects to are exactly `L`. -/
theorem C10_address_block_round_trip (env : Env) (db : PGconn) (sb : Option (List Char))
    (L : List String)
    (hst : (PQexec db (stat_replication_query db)).status = PGRES_TUPLES_OK)
    (hrows : client_addrs (PQexec db (stat_replication_query db)) = L.map some)
    (hne : L ≠ [])
    (haddr : ∀ a ∈ L, isAddr a) :
    ∃ buf,
      (get_stream_replication env db (some sb)).1 = returned (0, some (some buf)) ∧
      (∃ len pos clients,
        copy_clients env (PQexec db (stat_replication_query db))
          (PQntuples (PQexec db (stat_replication_query db))) 0 1 0 [env.junk 0]
          = some (len, pos, clients) ∧
        clients.length = len ∧ pos + 1 = len ∧ len = buf.length) ∧
      buf.length = (L.map (fun a => a.length + 1)).sum + 1 ∧
      buf.drop (buf.length - 2) = [NUL, NUL] ∧
      (∀ (env2 : Env) (lsn : String) (fuel : Nat), L.length < fuel →
        (∀ a ∈ L, (standby_body env2 lsn a).1 = Step.advance) →
        get_standby_replication env2 fuel buf lsn
          = (returned 0, (L.map (fun a => (standby_body env2 lsn a).2)).flatten)) ∧
      (∀ (env2 : Env) (lsn : String) (fuel : Nat), L.length < fuel →
        (∀ a ∈ L, healthy env2 a = true) →
        (get_standby_replication env2 fuel buf lsn).1 = returned 0 ∧
        connects (get_standby_replication env2 fuel buf lsn).2 = L) := by
  have hnul : ∀ a ∈ L, NUL ∉ a.data := fun a ha => (haddr a ha).2
  have hs := get_stream_replication_ok env db sb L hst hrows hne hnul
  obtain ⟨y, hcopy⟩ := copy_clients_spec env (PQexec db (stat_replication_query db)) L 0 []
    (env.junk 0) (fun k => by simpa using PQgetvalue_client_addrs _ L hrows k) hnul
  simp only [List.length_nil, Nat.zero_add, List.nil_append] at hcopy
  obtain ⟨front, hfront⟩ := pack_ends_with_nul L hne
  refine ⟨encode L, by rw [hs], ?_, ?_, ?_, ?_, ?_⟩
  · refine ⟨(pack L).length + 1, (pack L).length, pack L ++ [y], ?_, ?_, rfl, ?_⟩
    · rw [PQntuples_client_addrs _ L hrows]; exact hcopy
    · simp
    · simp [encode]
  · simp [encode, length_pack]
  · rw [encode, hfront]
    simp
  · intro env2 lsn fuel hfuel hadv
    rw [standby_loop_all env2 lsn L fuel (fun a ha => ⟨haddr a ha, hadv a ha⟩) hfuel,
      body_traces_eq_flatten]
  · intro env2 lsn fuel hfuel hh
    rw [standby_loop_all env2 lsn L fuel
      (fun a ha => ⟨haddr a ha, (healthy_body env2 lsn a (hh a ha)).1⟩) hfuel]
    exact ⟨rfl, connects_body_traces env2 lsn L hh⟩

/-- C10 on the example replication list 10.0.0.2, 10.0.0.3. -/
theorem C10_address_block_witness :
    ∃ buf,
      (get_stream_replication env_two_standbys (PGconn.mk "10.0.0.1"
        (primary_server 120000
          (tuples_ok [replication_row "10.0.0.2", replication_row "10.0.0.3"])
          (tuples_ok [["0/3000060"]]))) (some none)).1 = returned (0, some (some buf)) ∧
      buf.length = 19 ∧
      buf.drop (buf.length - 2) = [NUL, NUL] ∧
      (get_standby_replication env_two_standbys 3 buf "0/3000060").1 = returned 0 ∧
      connects (get_standby_replication env_two_standbys 3 buf "0/3000060").2
        = ["10.0.0.2", "10.0.0.3"] := by
  obtain ⟨buf, h1, _, h3, h4, _, h6⟩ := C10_address_block_round_trip env_two_standbys
    (PGconn.mk "10.0.0.1"
      (primary_server 120000
        (tuples_ok [replication_row "10.0.0.2", replication_row "10.0.0.3"])
        (tuples_ok [["0/3000060"]]))) none ["10.0.0.2", "10.0.0.3"]
    (by decide) (by decide) (by decide) (by decide)
  have h7 := h6 env_two_standbys "0/3000060" 3 (by decide) (by decide)
  exact ⟨buf, h1, h3, h4, h7.1, h7.2⟩

end Replag
